import Mathlib

/-!
Shallow embedding of the service-worker cache layer of the portfolio
repository (file `sw` in the sources).  Pure helper functions are
translated directly; the event handlers and caching strategies are
modelled as explicit state-passing functions over an assoc-list cache
store, with the outcome of a live `fetch` supplied as an oracle
(`none` models a rejected fetch, `some r` a resolved response).
-/

namespace PortfolioSW

/-- JS `String.prototype.startsWith` on character lists: the first list
is a leading segment of the second. -/
def headMatches : List Char → List Char → Bool
  | [], _ => true
  | _ :: _, [] => false
  | a :: as, b :: bs => a == b && headMatches as bs

/-- Substring search on character lists: the pattern occurs somewhere in
the subject. -/
def hasSub (pat : List Char) : List Char → Bool
  | [] => headMatches pat []
  | c :: cs => headMatches pat (c :: cs) || hasSub pat cs

/-- JS `s.includes(pat)`: `pat` occurs as a contiguous substring of `s`. -/
def jsIncludes (s pat : String) : Bool :=
  hasSub pat.data s.data

/-- `const CACHE_NAME = 'william-portfolio-v2'`. -/
def CACHE_NAME : String := "william-portfolio-v2"

/-- `const STATIC_CACHE = 'static-v2'`. -/
def STATIC_CACHE : String := "static-v2"

/-- `const DYNAMIC_CACHE = 'dynamic-v2'`. -/
def DYNAMIC_CACHE : String := "dynamic-v2"

/-- `const STATIC_ASSETS = [...]`: install-time first-party manifest. -/
def STATIC_ASSETS : List String :=
  ["/", "/index.html", "/critical.css", "/styles.css",
   "/script-optimized.js", "/manifest.json"]

/-- `const EXTERNAL_RESOURCES = [...]`: install-time external manifest. -/
def EXTERNAL_RESOURCES : List String :=
  ["https://fonts.googleapis.com/css2?family=Inter:wght@300;400;500;600;700&display=swap",
   "https://fonts.gstatic.com/s/inter/v12/UcCO3FwrK3iLTeHuS_fvQtMwCp50KnMw2boKoduKmMEVuLyfAZ9hiA.woff2"]

/-- `function isStaticAsset(url)`. -/
def isStaticAsset (url : String) : Bool :=
  STATIC_ASSETS.any (fun asset => jsIncludes url asset) ||
  jsIncludes url ".css" ||
  jsIncludes url ".js" ||
  jsIncludes url ".html"

/-- `function isExternalResource(url)`. -/
def isExternalResource (url : String) : Bool :=
  jsIncludes url "fonts.googleapis.com" ||
  jsIncludes url "fonts.gstatic.com" ||
  jsIncludes url "cdnjs.cloudflare.com" ||
  jsIncludes url "unsplash.com"

/-- `function isAPIRequest(url)`. -/
def isAPIRequest (url : String) : Bool :=
  jsIncludes url "/api/" ||
  jsIncludes url ".json" ||
  jsIncludes url "sendgrid.com"

/-- The four request categories of the data-model invariant. -/
inductive Category
  | staticAsset
  | externalResource
  | apiRequest
  | other
  deriving DecidableEq

/-- The three caching strategies named in `CACHE_STRATEGIES`. -/
inductive Strategy
  | cacheFirst
  | networkFirst
  | staleWhileRevalidate
  deriving DecidableEq

/-- The classification the fetch listener performs on a request URL:
the if-else chain over `isStaticAsset`, `isExternalResource`,
`isAPIRequest` in source order. -/
def classify (url : String) : Category :=
  if isStaticAsset url then Category.staticAsset
  else if isExternalResource url then Category.externalResource
  else if isAPIRequest url then Category.apiRequest
  else Category.other

/-- An intercepted request: method, URL string and `request.destination`. -/
structure Request where
  method : String
  url : String
  destination : String
  deriving DecidableEq

/-- The dispatch decision of the `fetch` event listener: `none` when the
listener returns without calling `respondWith` (non-GET requests),
otherwise the strategy handed to `respondWith`. -/
def fetchListener (req : Request) : Option Strategy :=
  if req.method ≠ "GET" then none
  else if isStaticAsset req.url then some Strategy.cacheFirst
  else if isExternalResource req.url then some Strategy.staleWhileRevalidate
  else if isAPIRequest req.url then some Strategy.networkFirst
  else some Strategy.cacheFirst

/-- The strategy the specification assigns to each category (section 4.2
of the spec); written from the words of the spec to be compared with
`fetchListener`. -/
def specStrategyFor : Category → Strategy
  | Category.staticAsset => Strategy.cacheFirst
  | Category.externalResource => Strategy.staleWhileRevalidate
  | Category.apiRequest => Strategy.networkFirst
  | Category.other => Strategy.cacheFirst

/-- A stored or live HTTP response: status, content type and body. -/
structure Response where
  status : Nat
  contentType : String
  body : String
  deriving DecidableEq

/-- JS `response.ok`: status in the 2xx range. -/
def Response.ok (r : Response) : Bool :=
  200 ≤ r.status && r.status ≤ 299

/-- One named cache bucket: an assoc list from request URL to response. -/
abbrev CacheBucket := List (String × Response)

/-- The CacheStorage: an ordered assoc list of named buckets. -/
abbrev CacheStorage := List (String × CacheBucket)

/-- `cache.match(request)` inside one bucket: first entry with the URL. -/
def bucketMatch : CacheBucket → String → Option Response
  | [], _ => none
  | e :: rest, url => if e.1 == url then some e.2 else bucketMatch rest url

/-- `caches.match(request)`: search every bucket in order. -/
def cachesMatch : CacheStorage → String → Option Response
  | [], _ => none
  | b :: rest, url =>
    match bucketMatch b.2 url with
    | some r => some r
    | none => cachesMatch rest url

/-- `caches.open(name)`: create the bucket when absent. -/
def cachesOpen : CacheStorage → String → CacheStorage
  | [], name => [(name, [])]
  | b :: rest, name =>
    if b.1 == name then b :: rest else b :: cachesOpen rest name

/-- `cache.put(request, response)` inside one bucket: overwrite the
entry for the URL, or append it. -/
def bucketPut : CacheBucket → String → Response → CacheBucket
  | [], url, resp => [(url, resp)]
  | e :: rest, url, resp =>
    if e.1 == url then (url, resp) :: rest else e :: bucketPut rest url resp

/-- `caches.open(name)` followed by `cache.put(request, response)`:
update the named bucket, creating it when absent. -/
def cachePut : CacheStorage → String → String → Response → CacheStorage
  | [], name, url, resp => [(name, [(url, resp)])]
  | b :: rest, name, url, resp =>
    if b.1 == name then (b.1, bucketPut b.2 url resp) :: rest
    else b :: cachePut rest name url resp

/-- Look up a URL inside the bucket with the given name only
(`cache.match` on a bucket obtained from `caches.open(name)`). -/
def cacheMatchIn : CacheStorage → String → String → Option Response
  | [], _, _ => none
  | b :: rest, name, url =>
    if b.1 == name then bucketMatch b.2 url else cacheMatchIn rest name url

/-- The SVG placeholder body returned for offline image requests. -/
def offlineSvgBody : String :=
  "<svg xmlns=\"http://www.w3.org/2000/svg\" width=\"300\" height=\"200\"><rect width=\"100%\" height=\"100%\" fill=\"#ddd\"/><text x=\"50%\" y=\"50%\" text-anchor=\"middle\" dy=\".3em\" font-family=\"Arial\" font-size=\"14\" fill=\"#999\">Image offline</text></svg>"

/-- `function getOfflineFallback(request)`.  The document branch returns
`caches.match('/index.html')`, which resolves to nothing when the root
page is not cached; the image branch builds a 200 SVG response; the
final branch builds a 503 response with the default text content type. -/
def getOfflineFallback (st : CacheStorage) (req : Request) : Option Response :=
  if req.destination == "document" then
    cachesMatch st "/index.html"
  else if req.destination == "image" then
    some { status := 200, contentType := "image/svg+xml", body := offlineSvgBody }
  else
    some { status := 503, contentType := "text/plain;charset=UTF-8", body := "Offline" }

/-- Result of running one strategy: the response the returned promise
resolves to (`none` models resolving to `undefined`), the cache storage
after the run, and how many live fetches were issued. -/
structure StrategyOutcome where
  response : Option Response
  state : CacheStorage
  fetchCount : Nat
  deriving DecidableEq

/-- `async function cacheFirst(request)`.  `fetchResult` is the outcome
of `fetch(request)`: `none` for a rejected fetch, `some resp` for a
resolved one.  A cache hit is returned with no fetch; on a miss the
fetch result is cached in the static bucket only when `ok`, and a
rejected fetch falls through to the offline fallback. -/
def cacheFirst (st : CacheStorage) (req : Request) (fetchResult : Option Response) :
    StrategyOutcome :=
  match cachesMatch st req.url with
  | some cached => ⟨some cached, st, 0⟩
  | none =>
    match fetchResult with
    | some resp =>
      if resp.ok then ⟨some resp, cachePut st STATIC_CACHE req.url resp, 1⟩
      else ⟨some resp, st, 1⟩
    | none => ⟨getOfflineFallback st req, st, 1⟩

/-- `async function networkFirst(request)`.  A resolved fetch is always
returned (cached into the dynamic bucket when `ok`); only a rejected
fetch reaches the catch block that consults the cache and then the
offline fallback. -/
def networkFirst (st : CacheStorage) (req : Request) (fetchResult : Option Response) :
    StrategyOutcome :=
  match fetchResult with
  | some resp =>
    if resp.ok then ⟨some resp, cachePut st DYNAMIC_CACHE req.url resp, 1⟩
    else ⟨some resp, st, 1⟩
  | none =>
    match cachesMatch st req.url with
    | some cached => ⟨some cached, st, 1⟩
    | none => ⟨getOfflineFallback st req, st, 1⟩

/-- Result of `staleWhileRevalidate`: the resolved response, the final
cache storage after the background refresh settles, and whether the
response path awaited the live fetch. -/
structure SwrOutcome where
  response : Option Response
  state : CacheStorage
  awaitedFetch : Bool
  deriving DecidableEq

/-- `async function staleWhileRevalidate(request)`.  The dynamic bucket
is opened and consulted; the background fetch stores an `ok` response
into it; the cached entry, when present, is returned without awaiting
the fetch, and otherwise the fetch promise is awaited — whose catch
handler resolves to the (absent) cached value on rejection. -/
def staleWhileRevalidate (st : CacheStorage) (req : Request)
    (fetchResult : Option Response) : SwrOutcome :=
  let st1 := cachesOpen st DYNAMIC_CACHE
  let cached := cacheMatchIn st1 DYNAMIC_CACHE req.url
  let st2 :=
    match fetchResult with
    | some resp => if resp.ok then cachePut st1 DYNAMIC_CACHE req.url resp else st1
    | none => st1
  match cached with
  | some c => ⟨some c, st2, false⟩
  | none =>
    match fetchResult with
    | some resp => ⟨some resp, st2, true⟩
    | none => ⟨cached, st2, true⟩

/-- A queued mutating request persisted in the `requests` object store
(keyPath `id`). -/
structure PendingRequest where
  id : String
  url : String
  method : String
  body : String
  deriving DecidableEq

/-- `removeStoredRequest(id)`: delete the entry with the given id from
the durable store. -/
def removeStoredRequest (store : List PendingRequest) (id : String) :
    List PendingRequest :=
  store.filter (fun r => r.id ≠ id)

/-- The replay loop of `syncContactForm`: each pending request is
replayed in order; `replayOk r = true` models the replayed
`fetch(request.url, ...)` resolving, `false` its rejection (caught by
the per-entry catch block, which only logs).  On success the entry is
deleted from the store; on failure the loop continues with the store
untouched. -/
def syncLoop (replayOk : PendingRequest → Bool) :
    List PendingRequest → List PendingRequest → List PendingRequest
  | [], store => store
  | r :: rs, store =>
    if replayOk r then syncLoop replayOk rs (removeStoredRequest store r.id)
    else syncLoop replayOk rs store

/-- `async function syncContactForm()`: read all stored requests, then
run the replay loop over them. -/
def syncContactForm (store : List PendingRequest)
    (replayOk : PendingRequest → Bool) : List PendingRequest :=
  syncLoop replayOk store store

/-- Observable steps of the activate handler: deleting a cache bucket,
and claiming the in-flight clients. -/
inductive ActEvent
  | deleteBucket (name : String)
  | claimClients
  deriving DecidableEq

/-- The activate event listener as the ordered trace of its effects:
`caches.keys()` is mapped over, each name different from both
`STATIC_CACHE` and `DYNAMIC_CACHE` is deleted, and after all deletions
settle `self.clients.claim()` runs. -/
def activateTrace (cacheNames : List String) : List ActEvent :=
  (cacheNames.filter
      (fun name => name ≠ STATIC_CACHE && name ≠ DYNAMIC_CACHE)).map
    ActEvent.deleteBucket
  ++ [ActEvent.claimClients]

/-- A fetch attempt succeeds for `cache.addAll` purposes when it
resolves with an `ok` response. -/
def fetchOk (oracle : String → Option Response) (u : String) : Bool :=
  match oracle u with
  | some r => r.ok
  | none => false

/-- One step of `cache.addAll`: fetch a URL and put the response into
the bucket `name`, failing when the fetch rejects or resolves without
an `ok` status. -/
def addAllStep (name : String) (oracle : String → Option Response)
    (s : CacheStorage) (u : String) : Option CacheStorage :=
  match oracle u with
  | some r => if r.ok then some (cachePut s name u r) else none
  | none => none

/-- `cache.addAll(urls)` on the bucket `name`: fetch every URL and put
all responses, rejecting (and yielding no storage) when any fetch
rejects or resolves without an `ok` status. -/
def addAll (st : CacheStorage) (name : String) (urls : List String)
    (oracle : String → Option Response) : Option CacheStorage :=
  List.foldlM (addAllStep name oracle) (cachesOpen st name) urls

/-- The install event listener body: `Promise.all` of
`addAll(STATIC_ASSETS)` on the static bucket and
`addAll(EXTERNAL_RESOURCES)` on the dynamic bucket; the whole
population fails when either part does. -/
def installPopulate (st : CacheStorage) (oracle : String → Option Response) :
    Option CacheStorage :=
  match addAll st STATIC_CACHE STATIC_ASSETS oracle with
  | none => none
  | some st1 => addAll st1 DYNAMIC_CACHE EXTERNAL_RESOURCES oracle

/-- Modelled from the spec: the version-lifecycle effect of the install
event, which is enforced by the worker platform rather than by code in
the sources.  Section 4.5 of the spec: population failure aborts
installation — the new version never activates and the previous active
version, if any, remains active; on success the new version
(`CACHE_NAME`) proceeds (the handler calls `self.skipWaiting()`). -/
def installEvent (prevActive : Option String) (st : CacheStorage)
    (oracle : String → Option Response) : Option String × CacheStorage :=
  match installPopulate st oracle with
  | some st1 => (some CACHE_NAME, st1)
  | none => (prevActive, st)

/-! ### Helper lemmas about the cache store -/

theorem bucketMatch_bucketPut_self (b : CacheBucket) (url : String) (resp : Response) :
    bucketMatch (bucketPut b url resp) url = some resp := by
  induction b with
  | nil => simp [bucketPut, bucketMatch]
  | cons e rest ih =>
    by_cases h : e.1 = url
    · simp [bucketPut, bucketMatch, h]
    · simp [bucketPut, bucketMatch, h, ih]

theorem bucketMatch_bucketPut_other (b : CacheBucket) (u url : String)
    (resp : Response) (h : u ≠ url) :
    bucketMatch (bucketPut b url resp) u = bucketMatch b u := by
  induction b with
  | nil => simp [bucketPut, bucketMatch, Ne.symm h]
  | cons e rest ih =>
    by_cases he : e.1 = url
    · subst he
      simp [bucketPut, bucketMatch, Ne.symm h]
    · by_cases hu : e.1 = u
      · subst hu
        simp [bucketPut, bucketMatch, he]
      · simp [bucketPut, bucketMatch, he, hu, ih]

theorem bucketMatch_bucketPut_isSome (b : CacheBucket) (u url : String)
    (resp : Response) (h : (bucketMatch b u).isSome) :
    (bucketMatch (bucketPut b url resp) u).isSome := by
  by_cases hu : u = url
  · subst hu; simp [bucketMatch_bucketPut_self]
  · rwa [bucketMatch_bucketPut_other b u url resp hu]

theorem cachesMatch_cons_eq_none {b : String × CacheBucket} {rest : CacheStorage}
    {url : String} :
    cachesMatch (b :: rest) url = none ↔
      bucketMatch b.2 url = none ∧ cachesMatch rest url = none := by
  cases h : bucketMatch b.2 url <;> simp [cachesMatch, h]

theorem cachesMatch_cachePut (st : CacheStorage) (name url : String)
    (resp : Response) (h : cachesMatch st url = none) :
    cachesMatch (cachePut st name url resp) url = some resp := by
  induction st with
  | nil => simp [cachePut, cachesMatch, bucketMatch]
  | cons b rest ih =>
    rw [cachesMatch_cons_eq_none] at h
    by_cases hn : b.1 = name
    · simp [cachePut, hn, cachesMatch, bucketMatch_bucketPut_self]
    · simp [cachePut, hn, cachesMatch, h.1, ih h.2]

theorem cacheMatchIn_open (st : CacheStorage) (name url : String) :
    cacheMatchIn (cachesOpen st name) name url = cacheMatchIn st name url := by
  induction st with
  | nil => simp [cachesOpen, cacheMatchIn, bucketMatch]
  | cons b rest ih =>
    by_cases h : b.1 = name <;> simp [cachesOpen, cacheMatchIn, h, ih]

theorem cacheMatchIn_cachePut_self (st : CacheStorage) (name url : String)
    (resp : Response) :
    cacheMatchIn (cachePut st name url resp) name url = some resp := by
  induction st with
  | nil => simp [cachePut, cacheMatchIn, bucketMatch]
  | cons b rest ih =>
    by_cases h : b.1 = name <;>
      simp [cachePut, cacheMatchIn, h, ih, bucketMatch_bucketPut_self]

theorem cacheMatchIn_cachePut_isSome (st : CacheStorage) (n u n2 u2 : String)
    (r : Response) (h : (cacheMatchIn st n u).isSome) :
    (cacheMatchIn (cachePut st n2 u2 r) n u).isSome := by
  induction st with
  | nil => simp [cacheMatchIn] at h
  | cons b rest ih =>
    by_cases hb : b.1 = n2
    · subst hb
      by_cases hn : b.1 = n
      · subst hn
        simp [cachePut, cacheMatchIn] at h ⊢
        exact bucketMatch_bucketPut_isSome _ _ _ _ h
      · simp [cachePut, cacheMatchIn, hn] at h ⊢
        exact h
    · by_cases hn : b.1 = n
      · subst hn
        simp [cachePut, cacheMatchIn, hb] at h ⊢
        exact h
      · simp [cachePut, cacheMatchIn, hb, hn] at h ⊢
        exact ih h

/-! ### Claim theorems -/

/-- C1: the fetch dispatcher applies the strategy determined by the
request category — static asset gets cache-first, external resource
gets stale-while-revalidate, API/data request gets network-first, any
other URL gets cache-first — and a non-GET request is not intercepted
at all. -/
theorem dispatcher_strategy_by_category (req : Request) :
    (req.method = "GET" →
      fetchListener req = some (specStrategyFor (classify req.url))) ∧
    (req.method ≠ "GET" → fetchListener req = none) := by
  constructor
  · intro h
    rw [fetchListener, if_neg (by simp [h])]
    rw [classify]
    by_cases h1 : isStaticAsset req.url
    · simp [h1, specStrategyFor]
    · by_cases h2 : isExternalResource req.url
      · simp [h1, h2, specStrategyFor]
      · by_cases h3 : isAPIRequest req.url <;> simp [h1, h2, h3, specStrategyFor]
  · intro h
    rw [fetchListener, if_pos h]

/-- Witness for C1 at two concrete requests: a GET for a first-party
style sheet is answered with the strategy of its category, and a POST
is not intercepted. -/
theorem dispatcher_strategy_by_category_witness :
    fetchListener ⟨"GET", "https://example.com/styles.css", "style"⟩ =
      some (specStrategyFor (classify "https://example.com/styles.css")) ∧
    fetchListener ⟨"POST", "https://example.com/contact", ""⟩ = none :=
  ⟨(dispatcher_strategy_by_category ⟨"GET", "https://example.com/styles.css", "style"⟩).1 rfl,
   (dispatcher_strategy_by_category ⟨"POST", "https://example.com/contact", ""⟩).2
     (by decide)⟩

/-- C7: classification assigns every URL to exactly one of the four
categories, is characterised by the three pure predicates taken in
source order, and is deterministic (the same URL always yields the same
class). -/
theorem classify_exactly_one_deterministic (url : String) :
    ([Category.staticAsset, Category.externalResource, Category.apiRequest,
        Category.other].count (classify url) = 1) ∧
    (classify url = Category.staticAsset ↔ isStaticAsset url = true) ∧
    (classify url = Category.externalResource ↔
      (isStaticAsset url = false ∧ isExternalResource url = true)) ∧
    (classify url = Category.apiRequest ↔
      (isStaticAsset url = false ∧ isExternalResource url = false ∧
        isAPIRequest url = true)) ∧
    (classify url = Category.other ↔
      (isStaticAsset url = false ∧ isExternalResource url = false ∧
        isAPIRequest url = false)) ∧
    (∀ u : String, u = url → classify u = classify url) := by
  refine ⟨?_, ?_, ?_, ?_, ?_, fun u hu => by rw [hu]⟩
  · cases hc : classify url <;> simp [hc]
  all_goals
    by_cases h1 : isStaticAsset url <;> by_cases h2 : isExternalResource url <;>
      by_cases h3 : isAPIRequest url <;>
        simp [classify, h1, h2, h3]

/-- Witness for C7 at a concrete URL. -/
theorem classify_exactly_one_deterministic_witness :
    classify "https://example.com/styles.css" = Category.staticAsset ∧
    isStaticAsset "https://example.com/styles.css" = true :=
  ⟨(classify_exactly_one_deterministic "https://example.com/styles.css").2.1.mpr
      (by decide),
   by decide⟩

/-- C10: in cache-first (on a miss) and in network-first, a resolved
live-fetch response with a non-ok status is returned to the caller
while the cache storage is left unchanged. -/
theorem non_ok_response_never_cached (st : CacheStorage) (req : Request)
    (resp : Response) (hok : resp.ok = false) :
    (cachesMatch st req.url = none →
      cacheFirst st req (some resp) = ⟨some resp, st, 1⟩) ∧
    networkFirst st req (some resp) = ⟨some resp, st, 1⟩ := by
  constructor
  · intro hmiss
    simp [cacheFirst, hmiss, hok]
  · simp [networkFirst, hok]

/-- Witness for C10: a 500 response on an empty cache store is returned
by both strategies and nothing is written. -/
theorem non_ok_response_never_cached_witness :
    cacheFirst [] ⟨"GET", "https://example.com/styles.css", "style"⟩
        (some ⟨500, "text/plain", "err"⟩) =
      ⟨some ⟨500, "text/plain", "err"⟩, [], 1⟩ ∧
    networkFirst [] ⟨"GET", "https://example.com/styles.css", "style"⟩
        (some ⟨500, "text/plain", "err"⟩) =
      ⟨some ⟨500, "text/plain", "err"⟩, [], 1⟩ := by
  have h := non_ok_response_never_cached []
    ⟨"GET", "https://example.com/styles.css", "style"⟩
    ⟨500, "text/plain", "err"⟩ (by decide)
  exact ⟨h.1 rfl, h.2⟩

/-- C6: cache-first returns a hit immediately with no fetch and no
state change; a miss performs exactly one fetch; a successful (ok)
fetch result is stored in the static bucket, and an identical second
request is then served from cache with no fetch. -/
theorem cacheFirst_hit_miss_caching (st : CacheStorage) (req : Request)
    (f : Option Response) :
    (∀ c, cachesMatch st req.url = some c →
      cacheFirst st req f = ⟨some c, st, 0⟩) ∧
    (cachesMatch st req.url = none →
      (cacheFirst st req f).fetchCount = 1 ∧
      ∀ resp, f = some resp → resp.ok = true →
        cacheFirst st req f =
          ⟨some resp, cachePut st STATIC_CACHE req.url resp, 1⟩ ∧
        cacheMatchIn (cacheFirst st req f).state STATIC_CACHE req.url =
          some resp ∧
        ∀ g, cacheFirst (cacheFirst st req f).state req g =
          ⟨some resp, (cacheFirst st req f).state, 0⟩) := by
  constructor
  · intro c hc
    simp [cacheFirst, hc]
  · intro hmiss
    constructor
    · cases f with
      | none => simp [cacheFirst, hmiss]
      | some resp =>
        by_cases h : resp.ok <;> simp [cacheFirst, hmiss, h]
    · rintro resp rfl hok
      have hstep : cacheFirst st req (some resp) =
          ⟨some resp, cachePut st STATIC_CACHE req.url resp, 1⟩ := by
        simp [cacheFirst, hmiss, hok]
      refine ⟨hstep, ?_, ?_⟩
      · rw [hstep]
        exact cacheMatchIn_cachePut_self st STATIC_CACHE req.url resp
      · intro g
        rw [hstep]
        simp [cacheFirst, cachesMatch_cachePut st STATIC_CACHE req.url resp hmiss]

/-- Witness for C6: a concrete miss for `/styles.css` with an ok fetch
is cached in the static bucket and the second identical request is a
hit with no fetch. -/
theorem cacheFirst_hit_miss_caching_witness :
    cacheFirst [] ⟨"GET", "/styles.css", "style"⟩
        (some ⟨200, "text/css", "body"⟩) =
      ⟨some ⟨200, "text/css", "body"⟩,
       cachePut [] STATIC_CACHE "/styles.css" ⟨200, "text/css", "body"⟩, 1⟩ ∧
    ∀ g, cacheFirst (cacheFirst [] ⟨"GET", "/styles.css", "style"⟩
        (some ⟨200, "text/css", "body"⟩)).state ⟨"GET", "/styles.css", "style"⟩ g =
      ⟨some ⟨200, "text/css", "body"⟩,
       (cacheFirst [] ⟨"GET", "/styles.css", "style"⟩
         (some ⟨200, "text/css", "body"⟩)).state, 0⟩ := by
  have h := ((cacheFirst_hit_miss_caching [] ⟨"GET", "/styles.css", "style"⟩
    (some ⟨200, "text/css", "body"⟩)).2 rfl).2 ⟨200, "text/css", "body"⟩ rfl (by decide)
  exact ⟨h.1, h.2.2⟩

/-- Counterexample to C2: with a cached entry present, a live fetch
that resolves with status 500 (a non-success status) is returned as-is
by network-first — the cached entry is not used, contradicting the
claim that a non-success status counts as failure and falls back to the
cache. -/
theorem networkFirst_non_ok_counterexample :
    (networkFirst
        [(DYNAMIC_CACHE,
          [("https://example.com/api/data",
            (⟨200, "application/json", "old"⟩ : Response))])]
        ⟨"GET", "https://example.com/api/data", ""⟩
        (some ⟨500, "text/plain", "err"⟩)).response =
      some ⟨500, "text/plain", "err"⟩ ∧
    cachesMatch
        [(DYNAMIC_CACHE,
          [("https://example.com/api/data",
            (⟨200, "application/json", "old"⟩ : Response))])]
        "https://example.com/api/data" =
      some ⟨200, "application/json", "old"⟩ ∧
    (some (⟨500, "text/plain", "err"⟩ : Response) ≠
      some (⟨200, "application/json", "old"⟩ : Response)) := by
  refine ⟨rfl, rfl, by decide⟩

/-- C2 (amended): in network-first, failure means the live fetch
rejects; then the cached entry is returned when present and the offline
fallback otherwise.  A fetch that resolves with an ok status is stored
in the dynamic bucket and returned; a fetch that resolves with a non-ok
status is returned as-is and nothing is cached. -/
theorem networkFirst_behavior (st : CacheStorage) (req : Request)
    (f : Option Response) :
    (∀ resp, f = some resp → resp.ok = true →
      networkFirst st req f =
        ⟨some resp, cachePut st DYNAMIC_CACHE req.url resp, 1⟩ ∧
      cacheMatchIn (networkFirst st req f).state DYNAMIC_CACHE req.url =
        some resp) ∧
    (∀ resp, f = some resp → resp.ok = false →
      networkFirst st req f = ⟨some resp, st, 1⟩) ∧
    (f = none → ∀ c, cachesMatch st req.url = some c →
      networkFirst st req f = ⟨some c, st, 1⟩) ∧
    (f = none → cachesMatch st req.url = none →
      networkFirst st req f = ⟨getOfflineFallback st req, st, 1⟩) := by
  refine ⟨?_, ?_, ?_, ?_⟩
  · rintro resp rfl hok
    have hstep : networkFirst st req (some resp) =
        ⟨some resp, cachePut st DYNAMIC_CACHE req.url resp, 1⟩ := by
      simp [networkFirst, hok]
    refine ⟨hstep, ?_⟩
    rw [hstep]
    exact cacheMatchIn_cachePut_self st DYNAMIC_CACHE req.url resp
  · rintro resp rfl hok
    simp [networkFirst, hok]
  · rintro rfl c hc
    simp [networkFirst, hc]
  · rintro rfl hc
    simp [networkFirst, hc]

/-- Witness for the amended C2 at concrete inputs: an ok fetch is
cached and returned, and a rejected fetch with a cached entry returns
the cached entry. -/
theorem networkFirst_behavior_witness :
    networkFirst [] ⟨"GET", "https://example.com/api/data", ""⟩
        (some ⟨200, "application/json", "new"⟩) =
      ⟨some ⟨200, "application/json", "new"⟩,
       cachePut [] DYNAMIC_CACHE "https://example.com/api/data"
         ⟨200, "application/json", "new"⟩, 1⟩ ∧
    networkFirst
        [(DYNAMIC_CACHE,
          [("https://example.com/api/data",
            (⟨200, "application/json", "old"⟩ : Response))])]
        ⟨"GET", "https://example.com/api/data", ""⟩ none =
      ⟨some ⟨200, "application/json", "old"⟩,
       [(DYNAMIC_CACHE,
         [("https://example.com/api/data",
           (⟨200, "application/json", "old"⟩ : Response))])], 1⟩ := by
  refine ⟨((networkFirst_behavior [] ⟨"GET", "https://example.com/api/data", ""⟩
      (some ⟨200, "application/json", "new"⟩)).1
      ⟨200, "application/json", "new"⟩ rfl (by decide)).1, ?_⟩
  exact (networkFirst_behavior _ ⟨"GET", "https://example.com/api/data", ""⟩
      none).2.2.1 rfl ⟨200, "application/json", "old"⟩ rfl

/-- Counterexample to C3: with no cached entry and a rejected live
fetch, stale-while-revalidate resolves to no response at all, while the
offline fallback at the same input would be an actual response — the
strategy does not return the offline fallback as the claim states. -/
theorem staleWhileRevalidate_no_fallback_counterexample :
    (staleWhileRevalidate []
        ⟨"GET", "https://fonts.gstatic.com/s/inter/a.woff2", "font"⟩
        none).response = none ∧
    (getOfflineFallback []
        ⟨"GET", "https://fonts.gstatic.com/s/inter/a.woff2", "font"⟩).isSome =
      true :=
  ⟨rfl, rfl⟩

/-- C3 (amended): stale-while-revalidate returns a cached entry
immediately, without awaiting the live fetch and independently of its
outcome; with no cached entry it awaits the live fetch and returns its
result, resolving to no response (the absent cached value, not the
offline fallback) when that fetch rejects; an ok background fetch is
stored into the dynamic bucket. -/
theorem staleWhileRevalidate_behavior (st : CacheStorage) (req : Request)
    (f : Option Response) :
    (∀ c, cacheMatchIn st DYNAMIC_CACHE req.url = some c →
      (staleWhileRevalidate st req f).response = some c ∧
      (staleWhileRevalidate st req f).awaitedFetch = false ∧
      ∀ g, (staleWhileRevalidate st req g).response = some c) ∧
    (cacheMatchIn st DYNAMIC_CACHE req.url = none →
      (staleWhileRevalidate st req f).awaitedFetch = true ∧
      (∀ resp, f = some resp →
        (staleWhileRevalidate st req f).response = some resp) ∧
      (f = none → (staleWhileRevalidate st req f).response = none)) ∧
    (∀ resp, f = some resp → resp.ok = true →
      cacheMatchIn (staleWhileRevalidate st req f).state DYNAMIC_CACHE
        req.url = some resp) := by
  have hopen := cacheMatchIn_open st DYNAMIC_CACHE req.url
  refine ⟨?_, ?_, ?_⟩
  · intro c hc
    refine ⟨?_, ?_, fun g => ?_⟩ <;>
      simp [staleWhileRevalidate, hopen, hc]
  · intro hc
    refine ⟨?_, ?_, ?_⟩
    · cases f with
      | none => simp [staleWhileRevalidate, hopen, hc]
      | some resp =>
        by_cases h : resp.ok <;> simp [staleWhileRevalidate, hopen, hc, h]
    · rintro resp rfl
      by_cases h : resp.ok <;> simp [staleWhileRevalidate, hopen, hc, h]
    · rintro rfl
      simp [staleWhileRevalidate, hopen, hc]
  · rintro resp rfl hok
    cases hc : cacheMatchIn st DYNAMIC_CACHE req.url with
    | none =>
      simp [staleWhileRevalidate, hopen, hc, hok,
        cacheMatchIn_cachePut_self]
    | some c =>
      simp [staleWhileRevalidate, hopen, hc, hok,
        cacheMatchIn_cachePut_self]

/-- Witness for the amended C3 at concrete inputs: a cached font is
returned without awaiting the fetch, and on an empty store an ok fetch
result is returned and stored. -/
theorem staleWhileRevalidate_behavior_witness :
    (staleWhileRevalidate
        [(DYNAMIC_CACHE,
          [("https://fonts.gstatic.com/s/inter/a.woff2",
            (⟨200, "font/woff2", "cachedfont"⟩ : Response))])]
        ⟨"GET", "https://fonts.gstatic.com/s/inter/a.woff2", "font"⟩
        none).response = some ⟨200, "font/woff2", "cachedfont"⟩ ∧
    (staleWhileRevalidate
        [(DYNAMIC_CACHE,
          [("https://fonts.gstatic.com/s/inter/a.woff2",
            (⟨200, "font/woff2", "cachedfont"⟩ : Response))])]
        ⟨"GET", "https://fonts.gstatic.com/s/inter/a.woff2", "font"⟩
        none).awaitedFetch = false ∧
    (staleWhileRevalidate []
        ⟨"GET", "https://fonts.gstatic.com/s/inter/a.woff2", "font"⟩
        (some ⟨200, "font/woff2", "freshfont"⟩)).response =
      some ⟨200, "font/woff2", "freshfont"⟩ := by
  have h1 := (staleWhileRevalidate_behavior
    [(DYNAMIC_CACHE,
      [("https://fonts.gstatic.com/s/inter/a.woff2",
        (⟨200, "font/woff2", "cachedfont"⟩ : Response))])]
    ⟨"GET", "https://fonts.gstatic.com/s/inter/a.woff2", "font"⟩ none).1
    ⟨200, "font/woff2", "cachedfont"⟩ rfl
  have h2 := ((staleWhileRevalidate_behavior []
    ⟨"GET", "https://fonts.gstatic.com/s/inter/a.woff2", "font"⟩
    (some ⟨200, "font/woff2", "freshfont"⟩)).2.1 rfl).2.1
    ⟨200, "font/woff2", "freshfont"⟩ rfl
  exact ⟨h1.1, h1.2.1, h2⟩

/-- Counterexample to C4: a document-destination request with no cached
root page yields no response object at all from the offline-fallback
policy, contradicting the claim that it yields a minimal offline
indicator response and that the policy always produces some response
object. -/
theorem offlineFallback_document_counterexample :
    getOfflineFallback [] ⟨"GET", "https://example.com/page", "document"⟩ =
      none := rfl

/-- C4 (amended): the offline-fallback policy returns, for a
document-destination request, exactly the cached root page lookup —
which is no response at all when the root page is not cached; for an
image-destination request a generated placeholder with success status
and an image content type; and a synthetic 503 response for every other
destination. -/
theorem offlineFallback_behavior (st : CacheStorage) (req : Request) :
    (req.destination = "document" →
      getOfflineFallback st req = cachesMatch st "/index.html") ∧
    (req.destination = "image" →
      ∃ r, getOfflineFallback st req = some r ∧ r.status = 200 ∧
        r.contentType = "image/svg+xml") ∧
    (req.destination ≠ "document" → req.destination ≠ "image" →
      ∃ r, getOfflineFallback st req = some r ∧ r.status = 503) := by
  refine ⟨?_, ?_, ?_⟩
  · intro h
    simp [getOfflineFallback, h]
  · intro h
    by_cases hd : req.destination = "document"
    · rw [h] at hd
      exact absurd hd (by decide)
    · refine ⟨⟨200, "image/svg+xml", offlineSvgBody⟩, ?_, rfl, rfl⟩
      simp [getOfflineFallback, hd, h]
  · intro hd hi
    refine ⟨⟨503, "text/plain;charset=UTF-8", "Offline"⟩, ?_, rfl⟩
    simp [getOfflineFallback, hd, hi]

/-- Witness for the amended C4 at concrete requests: a cached root page
is returned for a document request, the image placeholder is an ok SVG,
and a script request gets a 503. -/
theorem offlineFallback_behavior_witness :
    getOfflineFallback
        [(STATIC_CACHE,
          [("/index.html", (⟨200, "text/html", "home"⟩ : Response))])]
        ⟨"GET", "https://example.com/page", "document"⟩ =
      cachesMatch
        [(STATIC_CACHE,
          [("/index.html", (⟨200, "text/html", "home"⟩ : Response))])]
        "/index.html" ∧
    (∃ r, getOfflineFallback [] ⟨"GET", "https://example.com/pic.png", "image"⟩ =
      some r ∧ r.status = 200 ∧ r.contentType = "image/svg+xml") ∧
    (∃ r, getOfflineFallback [] ⟨"GET", "https://example.com/x", "script"⟩ =
      some r ∧ r.status = 503) := by
  refine ⟨(offlineFallback_behavior _ _).1 rfl, ?_, ?_⟩
  · exact (offlineFallback_behavior []
      ⟨"GET", "https://example.com/pic.png", "image"⟩).2.1 rfl
  · exact (offlineFallback_behavior []
      ⟨"GET", "https://example.com/x", "script"⟩).2.2 (by decide) (by decide)

theorem syncLoop_filter (replayOk : PendingRequest → Bool)
    (l s : List PendingRequest) :
    syncLoop replayOk l s =
      s.filter (fun r => !(l.any (fun p => p.id == r.id && replayOk p))) := by
  induction l generalizing s with
  | nil => simp [syncLoop]
  | cons p l ih =>
    by_cases hp : replayOk p
    · rw [syncLoop, if_pos hp, ih, removeStoredRequest, List.filter_filter]
      refine List.filter_congr ?_
      intro r _
      by_cases hid : r.id = p.id
      · simp [hid, hp]
      · simp [hid, hp, Ne.symm hid]
    · rw [syncLoop, if_neg hp, ih]
      refine List.filter_congr ?_
      intro r _
      simp [hp]

/-- C5: during a sync replay, an entry is deleted from the durable
store exactly when its replay succeeds; a failed entry stays in the
store unmodified, and one failure never prevents the other entries from
being processed (the final store is the pointwise filter of the replay
outcomes). -/
theorem sync_replay_deletes_exactly_successes (store : List PendingRequest)
    (replayOk : PendingRequest → Bool)
    (hnd : (store.map PendingRequest.id).Nodup) :
    syncContactForm store replayOk =
      store.filter (fun r => !(replayOk r)) ∧
    ∀ r ∈ store,
      (replayOk r = true → r ∉ syncContactForm store replayOk) ∧
      (replayOk r = false → r ∈ syncContactForm store replayOk) := by
  have hinj := List.inj_on_of_nodup_map hnd
  have hmain : syncContactForm store replayOk =
      store.filter (fun r => !(replayOk r)) := by
    rw [syncContactForm, syncLoop_filter]
    refine List.filter_congr ?_
    intro r hr
    congr 1
    by_cases h : replayOk r
    · rw [h]
      exact List.any_eq_true.mpr ⟨r, hr, by simp [h]⟩
    · rw [Bool.eq_false_iff.mpr h]
      refine List.any_eq_false.mpr ?_
      intro p hp hP
      rw [Bool.and_eq_true, beq_iff_eq] at hP
      exact h (hinj hp hr hP.1 ▸ hP.2)
  refine ⟨hmain, fun r hr => ⟨?_, ?_⟩⟩
  · intro h hmem
    rw [hmain] at hmem
    rcases List.mem_filter.mp hmem with ⟨-, hb⟩
    simp [h] at hb
  · intro h
    rw [hmain]
    exact List.mem_filter.mpr ⟨hr, by simp [h]⟩

/-- Witness for C5: three queued entries of which only the one with id
`b` fails to replay; the sync pass keeps exactly that entry. -/
theorem sync_replay_deletes_exactly_successes_witness :
    syncContactForm
        [⟨"a", "/contact", "POST", "b1"⟩, ⟨"b", "/contact", "POST", "b2"⟩,
         ⟨"c", "/contact", "POST", "b3"⟩]
        (fun r => !(r.id == "b")) =
      [⟨"b", "/contact", "POST", "b2"⟩] ∧
    (⟨"a", "/contact", "POST", "b1"⟩ : PendingRequest) ∉
      syncContactForm
        [⟨"a", "/contact", "POST", "b1"⟩, ⟨"b", "/contact", "POST", "b2"⟩,
         ⟨"c", "/contact", "POST", "b3"⟩]
        (fun r => !(r.id == "b")) ∧
    (⟨"b", "/contact", "POST", "b2"⟩ : PendingRequest) ∈
      syncContactForm
        [⟨"a", "/contact", "POST", "b1"⟩, ⟨"b", "/contact", "POST", "b2"⟩,
         ⟨"c", "/contact", "POST", "b3"⟩]
        (fun r => !(r.id == "b")) := by
  have h := sync_replay_deletes_exactly_successes
    [⟨"a", "/contact", "POST", "b1"⟩, ⟨"b", "/contact", "POST", "b2"⟩,
     ⟨"c", "/contact", "POST", "b3"⟩]
    (fun r => !(r.id == "b")) (by decide)
  refine ⟨by rw [h.1]; rfl, ?_, ?_⟩
  · exact (h.2 ⟨"a", "/contact", "POST", "b1"⟩ (by simp)).1 (by decide)
  · exact (h.2 ⟨"b", "/contact", "POST", "b2"⟩ (by simp)).2 (by decide)

/-- C8: activation deletes exactly the cache buckets whose names are
not in the current bucket-name set, leaves the current buckets intact,
and claims the in-flight clients only after every deletion. -/
theorem activate_deletes_exactly_stale (names : List String) :
    (∀ n, ActEvent.deleteBucket n ∈ activateTrace names ↔
      (n ∈ names ∧ n ≠ STATIC_CACHE ∧ n ≠ DYNAMIC_CACHE)) ∧
    (∀ n, n ∈ names → (n = STATIC_CACHE ∨ n = DYNAMIC_CACHE) →
      ActEvent.deleteBucket n ∉ activateTrace names) ∧
    (∃ pre, activateTrace names = pre ++ [ActEvent.claimClients] ∧
      ActEvent.claimClients ∉ pre) := by
  refine ⟨?_, ?_, ?_⟩
  · intro n
    simp only [activateTrace, List.mem_append, List.mem_map, List.mem_filter,
      List.mem_singleton, Bool.and_eq_true, decide_eq_true_eq,
      ActEvent.deleteBucket.injEq, reduceCtorEq, or_false]
    constructor
    · rintro ⟨a, ⟨ha, h1, h2⟩, rfl⟩
      exact ⟨ha, h1, h2⟩
    · rintro ⟨hn, h1, h2⟩
      exact ⟨n, ⟨hn, h1, h2⟩, rfl⟩
  · intro n hn hcur hmem
    simp [activateTrace, List.mem_append, List.mem_map, List.mem_filter]
      at hmem
    rcases hcur with rfl | rfl
    · exact hmem.2.1 rfl
    · exact hmem.2.2 rfl
  · refine ⟨_, rfl, ?_⟩
    simp [List.mem_map]

/-- Witness for C8: from the bucket set with one stale name, the stale
bucket is deleted and the current static bucket is not. -/
theorem activate_deletes_exactly_stale_witness :
    ActEvent.deleteBucket "old-v1" ∈ activateTrace ["old-v1", "static-v2"] ∧
    ActEvent.deleteBucket "static-v2" ∉
      activateTrace ["old-v1", "static-v2"] := by
  have h := activate_deletes_exactly_stale ["old-v1", "static-v2"]
  exact ⟨(h.1 "old-v1").mpr ⟨by simp, by decide, by decide⟩,
    h.2.1 "static-v2" (by simp) (Or.inl rfl)⟩

theorem cacheMatchIn_cachesOpen (st : CacheStorage) (n2 n u : String) :
    cacheMatchIn (cachesOpen st n2) n u = cacheMatchIn st n u := by
  induction st with
  | nil =>
    by_cases h : n2 = n <;> simp [cachesOpen, cacheMatchIn, h, bucketMatch]
  | cons b rest ih =>
    by_cases h : b.1 = n2
    · simp [cachesOpen, h]
    · by_cases hn : b.1 = n
      · subst hn
        simp [cachesOpen, cacheMatchIn, h]
      · simp [cachesOpen, cacheMatchIn, h, hn, ih]

theorem addAllStep_eq_some {name : String} {oracle : String → Option Response}
    {s s1 : CacheStorage} {u : String}
    (h : addAllStep name oracle s u = some s1) :
    ∃ r, oracle u = some r ∧ r.ok = true ∧ s1 = cachePut s name u r := by
  cases ho : oracle u with
  | none => simp [addAllStep, ho] at h
  | some r =>
    by_cases hk : r.ok
    · simp [addAllStep, ho, hk] at h
      exact ⟨r, rfl, hk, h.symm⟩
    · simp [addAllStep, ho, hk] at h

theorem foldlM_addAll_preserves (name : String)
    (oracle : String → Option Response) (urls : List String) :
    ∀ s st2, List.foldlM (addAllStep name oracle) s urls = some st2 →
      ∀ n u, (cacheMatchIn s n u).isSome → (cacheMatchIn st2 n u).isSome := by
  induction urls with
  | nil =>
    intro s st2 h n u hs
    simp [List.foldlM] at h
    exact h ▸ hs
  | cons v vs ih =>
    intro s st2 h n u hs
    rw [List.foldlM_cons] at h
    cases hv : addAllStep name oracle s v with
    | none => rw [hv] at h; exact absurd h (by simp)
    | some s1 =>
      rw [hv] at h
      simp only [Option.pure_def, Option.bind_eq_bind, Option.some_bind] at h
      obtain ⟨r, -, -, rfl⟩ := addAllStep_eq_some hv
      exact ih _ st2 h n u (cacheMatchIn_cachePut_isSome _ _ _ _ _ _ hs)

theorem foldlM_addAll_mem (name : String)
    (oracle : String → Option Response) (urls : List String) :
    ∀ s st2, List.foldlM (addAllStep name oracle) s urls = some st2 →
      ∀ u ∈ urls, (cacheMatchIn st2 name u).isSome := by
  induction urls with
  | nil =>
    intro s st2 _ u hu
    exact absurd hu (by simp)
  | cons v vs ih =>
    intro s st2 h u hu
    rw [List.foldlM_cons] at h
    cases hv : addAllStep name oracle s v with
    | none => rw [hv] at h; exact absurd h (by simp)
    | some s1 =>
      rw [hv] at h
      simp only [Option.pure_def, Option.bind_eq_bind, Option.some_bind] at h
      rcases List.mem_cons.mp hu with rfl | hu2
      · obtain ⟨r, -, -, rfl⟩ := addAllStep_eq_some hv
        exact foldlM_addAll_preserves name oracle vs _ st2 h name u
          (by simp [cacheMatchIn_cachePut_self])
      · exact ih _ st2 h u hu2

theorem addAll_isSome (st : CacheStorage) (name : String) (urls : List String)
    (oracle : String → Option Response) :
    (addAll st name urls oracle).isSome = urls.all (fetchOk oracle) := by
  rw [addAll]
  generalize cachesOpen st name = s
  induction urls generalizing s with
  | nil => simp [List.foldlM]
  | cons v vs ih =>
    rw [List.foldlM_cons, List.all_cons]
    cases ho : oracle v with
    | none => simp [addAllStep, ho, fetchOk]
    | some r =>
      by_cases hk : r.ok
      · simp only [addAllStep, ho, if_pos hk, Option.pure_def,
          Option.bind_eq_bind, Option.some_bind]
        rw [ih]
        simp [fetchOk, ho, hk]
      · simp [addAllStep, ho, hk, fetchOk]

/-- C9: install population succeeds exactly when every manifest entry —
static and external — is fetchable with an ok status; when population
fails the previously active version stays active and the storage is
untouched; when it succeeds, every static manifest entry is in the
static bucket, every external manifest entry is in the dynamic bucket,
and the new version proceeds. -/
theorem install_population_atomic (prevActive : Option String)
    (st : CacheStorage) (oracle : String → Option Response) :
    ((installPopulate st oracle).isSome ↔
      (STATIC_ASSETS.all (fetchOk oracle) = true ∧
        EXTERNAL_RESOURCES.all (fetchOk oracle) = true)) ∧
    (installPopulate st oracle = none →
      installEvent prevActive st oracle = (prevActive, st)) ∧
    (∀ st2, installPopulate st oracle = some st2 →
      (∀ u ∈ STATIC_ASSETS, (cacheMatchIn st2 STATIC_CACHE u).isSome) ∧
      (∀ u ∈ EXTERNAL_RESOURCES, (cacheMatchIn st2 DYNAMIC_CACHE u).isSome) ∧
      installEvent prevActive st oracle = (some CACHE_NAME, st2)) := by
  refine ⟨?_, ?_, ?_⟩
  · rw [installPopulate]
    cases h1 : addAll st STATIC_CACHE STATIC_ASSETS oracle with
    | none =>
      have h2 := addAll_isSome st STATIC_CACHE STATIC_ASSETS oracle
      rw [h1] at h2
      simp only [Option.isSome_none] at h2
      simp [← h2]
    | some st1 =>
      have h2 := addAll_isSome st STATIC_CACHE STATIC_ASSETS oracle
      rw [h1] at h2
      simp only [Option.isSome_some] at h2
      have h3 := addAll_isSome st1 DYNAMIC_CACHE EXTERNAL_RESOURCES oracle
      simp [← h2, ← h3]
  · intro h
    rw [installEvent, h]
  · intro st2 h
    rw [installPopulate] at h
    cases h1 : addAll st STATIC_CACHE STATIC_ASSETS oracle with
    | none => rw [h1] at h; exact absurd h (by simp)
    | some st1 =>
      rw [h1] at h
      have hp : installPopulate st oracle = some st2 := by
        rw [installPopulate, h1]; exact h
      simp only [addAll] at h1 h
      refine ⟨?_, ?_, by rw [installEvent, hp]⟩
      · intro u hu
        have hmem := foldlM_addAll_mem STATIC_CACHE oracle STATIC_ASSETS
          (cachesOpen st STATIC_CACHE) st1 h1 u hu
        refine foldlM_addAll_preserves DYNAMIC_CACHE oracle EXTERNAL_RESOURCES
          (cachesOpen st1 DYNAMIC_CACHE) st2 h STATIC_CACHE u ?_
        rw [cacheMatchIn_cachesOpen]
        exact hmem
      · intro u hu
        exact foldlM_addAll_mem DYNAMIC_CACHE oracle EXTERNAL_RESOURCES
          (cachesOpen st1 DYNAMIC_CACHE) st2 h u hu

/-- Witness for C9: with an unreachable network every install fails and
the previous version stays active; with every URL fetchable the store
ends up holding the root page in the static bucket. -/
theorem install_population_atomic_witness :
    installEvent (some "william-portfolio-v1") [] (fun _ => none) =
      (some "william-portfolio-v1", []) ∧
    ∃ st2, installPopulate []
        (fun _ => some ⟨200, "text/plain", "ok"⟩) = some st2 ∧
      (cacheMatchIn st2 STATIC_CACHE "/index.html").isSome := by
  constructor
  · exact (install_population_atomic (some "william-portfolio-v1") []
      (fun _ => none)).2.1 rfl
  · cases hp : installPopulate [] (fun _ => some ⟨200, "text/plain", "ok"⟩) with
    | none =>
      have hiff := (install_population_atomic none []
        (fun _ => some ⟨200, "text/plain", "ok"⟩)).1
      rw [hp] at hiff
      simp only [Option.isSome_none] at hiff
      exact absurd (hiff.mpr ⟨rfl, rfl⟩) (by simp)
    | some st2 =>
      exact ⟨st2, rfl,
        ((install_population_atomic none []
          (fun _ => some ⟨200, "text/plain", "ok"⟩)).2.2 st2 hp).1
          "/index.html" (by simp [STATIC_ASSETS])⟩

end PortfolioSW
